import Mathlib

/-!
Verification of the `ml_croissant` datasets module.

Shallow embedding of `ml_croissant/_src/datasets.py`: the `_load_file`
helper, the `Validator.run_static_analysis` control flow, the `Dataset`
handle and the `Records.__iter__` execution engine, together with proofs
of the behavioural properties stated in the specification.

External collaborators (the RDF graph loader, the structure-graph
builder, the computation-graph compiler and the individual operation
implementations) are kept abstract: they enter the model as parameters
describing the issues they record, the exceptions they raise and the
values they return, exactly at the boundary where `datasets.py` calls
them.
-/

namespace Croissant

/-- A Python value as seen by the execution engine: tabular intermediate
results (`pandas` data frames, iterated row by row), dictionaries
(records and kwarg bindings), strings and integers. -/
inductive PyVal where
  | table (rows : List PyVal)
  | dict (fields : List (String × PyVal))
  | str (s : String)
  | int (n : Int)

/-- Severity of a recorded issue (`Issues.errors` vs `Issues.warnings`). -/
inductive Severity where
  | error
  | warning
  deriving DecidableEq

/-- One diagnostic recorded in the issue ledger. -/
structure Issue where
  severity : Severity
  message : String
  deriving DecidableEq

/-- Modelled from the spec: the issue ledger of `ml_croissant._src.core.issues`
(the module itself is not part of the sources): an ordered, append-only
sequence of issues. -/
structure Issues where
  issues : List Issue
  deriving DecidableEq

/-- The Error-severity issues of the ledger, in recording order. -/
def Issues.errors (i : Issues) : List Issue :=
  i.issues.filter (fun iss => iss.severity = Severity.error)

/-- The Warning-severity issues of the ledger, in recording order. -/
def Issues.warnings (i : Issues) : List Issue :=
  i.issues.filter (fun iss => iss.severity = Severity.warning)

/-- Modelled from the spec: `Issues.report` is "a single string
concatenating all ledger Issues, ordered by recording order". -/
def Issues.report (i : Issues) : String :=
  String.intercalate "\n" (i.issues.map Issue.message)

/-- Appending the issues newly recorded by one analysis stage. -/
def Issues.append (i : Issues) (new : List Issue) : Issues :=
  Issues.mk (i.issues ++ new)

/-- A Python exception, as far as `datasets.py` distinguishes them:
the `ValueError` raised by `_load_file`, the `ValidationError` raised by
`run_static_analysis`, and anything else escaping an external stage. -/
inductive Exc where
  | valueError (msg : String)
  | validationError (msg : String)
  | other (tag : String)
  deriving DecidableEq

/-- Outcome of `_load_file`: either the resolved path with the parsed
JSON content, or a raised exception. -/
def loadFile (fileExists : Bool) (filepath : String) (jsonExc : Option Exc)
    (content : PyVal) : Except Exc (String × PyVal) :=
  if fileExists then
    match jsonExc with
    | some e => Except.error e
    | none => Except.ok (filepath, content)
  else
    Except.error (Exc.valueError ("File " ++ filepath ++ " does not exist."))

/-- The observable effect of one external analysis stage: the issues it
records in the shared ledger and the exception it raises, if any. -/
structure StageEffect where
  recorded : List Issue
  exc : Option Exc
  deriving DecidableEq

/-- Everything the environment decides for one `run_static_analysis`
call: the file-system outcome of `_load_file`, and the effect of each
external stage (`load_rdf_graph`, `check_rdf_graph`,
`build_structure_graph` with the uid of the entry node it returns,
`ComputationGraph.from_nodes`, `check_graph`), plus the ledger the
`Validator` was constructed with (empty by default). -/
structure AnalysisEnv where
  filepath : String
  fileExists : Bool
  jsonExc : Option Exc
  fileContent : PyVal
  loadRdfExc : Option Exc
  checkRdf : StageEffect
  buildStructure : StageEffect
  entryUid : String
  fromNodes : StageEffect
  checkGraphEff : StageEffect
  initIssues : Issues

/-- State after the `try` body of `run_static_analysis`: the ledger,
whether `self.operations` was assigned, whether the MovieLens early
`return` was taken, the escaping exception if any, and which external
stages were actually invoked. -/
structure BodyOut where
  issues : Issues
  opsSet : Bool
  earlyReturn : Bool
  exc : Option Exc
  ranLoadRdf : Bool
  ranCheckRdf : Bool
  ranBuildStructure : Bool
  ranFromNodes : Bool
  ranCheckGraph : Bool
  deriving DecidableEq

/-- The `try` body of `Validator.run_static_analysis`, line by line:
load the file, load the RDF graph, check it, build the structure graph,
early-return for the `"Movielens-25M"` entry node, compile the
computation graph and check it. -/
def runBody (env : AnalysisEnv) : BodyOut :=
  match loadFile env.fileExists env.filepath env.jsonExc env.fileContent with
  | Except.error e =>
      BodyOut.mk env.initIssues false false (some e) false false false false false
  | Except.ok _ =>
    match env.loadRdfExc with
    | some e =>
        BodyOut.mk env.initIssues false false (some e) true false false false false
    | none =>
      let i1 := env.initIssues.append env.checkRdf.recorded
      match env.checkRdf.exc with
      | some e => BodyOut.mk i1 false false (some e) true true false false false
      | none =>
        let i2 := i1.append env.buildStructure.recorded
        match env.buildStructure.exc with
        | some e => BodyOut.mk i2 false false (some e) true true true false false
        | none =>
          if env.entryUid = "Movielens-25M" then
            BodyOut.mk i2 false true none true true true false false
          else
            let i3 := i2.append env.fromNodes.recorded
            match env.fromNodes.exc with
            | some e => BodyOut.mk i3 false false (some e) true true true true false
            | none =>
              let i4 := i3.append env.checkGraphEff.recorded
              match env.checkGraphEff.exc with
              | some e => BodyOut.mk i4 true false (some e) true true true true true
              | none => BodyOut.mk i4 true false none true true true true true

/-- How one `run_static_analysis` call terminates: a normal return
(recording whether the warning report was logged), or a raised
exception. -/
inductive VOutcome where
  | ok (loggedWarnings : Bool)
  | raised (e : Exc)
  deriving DecidableEq

/-- Full observable result of `Validator.run_static_analysis`. -/
structure RunResult where
  outcome : VOutcome
  issues : Issues
  opsSet : Bool
  ranLoadRdf : Bool
  ranCheckRdf : Bool
  ranBuildStructure : Bool
  ranFromNodes : Bool
  ranCheckGraph : Bool
  deriving DecidableEq

/-- `Validator.run_static_analysis`: run the `try` body; on an escaping
exception raise `ValidationError(report)` when the ledger holds errors
and re-raise the original exception otherwise; after a normal body
(unless the early `return` was taken) raise `ValidationError(report)` on
errors, log the report on warnings alone, and return silently
otherwise. -/
def runStaticAnalysis (env : AnalysisEnv) : RunResult :=
  let b := runBody env
  let out : VOutcome :=
    match b.exc with
    | some e =>
        if b.issues.errors.isEmpty then VOutcome.raised e
        else VOutcome.raised (Exc.validationError b.issues.report)
    | none =>
        if b.earlyReturn then VOutcome.ok false
        else if b.issues.errors.isEmpty then
          if b.issues.warnings.isEmpty then VOutcome.ok false
          else VOutcome.ok true
        else VOutcome.raised (Exc.validationError b.issues.report)
  RunResult.mk out b.issues b.opsSet b.ranLoadRdf b.ranCheckRdf
    b.ranBuildStructure b.ranFromNodes b.ranCheckGraph

/-! ## The execution engine of `Records.__iter__` -/

/-- The kinds of operation the executor distinguishes: `GroupRecordSet`
(carrying `operation.node.name`, the record-set name), `ReadField`, and
every other operation class, which the engine treats uniformly. -/
inductive OpKind where
  | groupRecordSet (nodeName : String)
  | readField
  | other
  deriving DecidableEq

/-- One node of the computation graph: an identity (Python object
identity, used as the key of the `results` cache), its kind, and its
`__call__` behaviour — positional arguments (Python values, where `none`
is Python's `None`) and the kwargs dictionary to the returned value. -/
structure Operation where
  id : Nat
  kind : OpKind
  apply : PyVal → List (Option PyVal) → Option PyVal

/-- The compiled `ComputationGraph.graph`: a topological order of its
operations (the one `nx.topological_sort` returns), the predecessor and
successor adjacency, and the per-node `kwargs` attribute. -/
structure ComputationGraph where
  topo : List Operation
  preds : Nat → List Operation
  succs : Nat → List Operation
  kwargsOf : Nat → PyVal

/-- The `results` cache of one iteration: one entry per executed
operation, storing the produced value (possibly Python `None`). -/
def Results : Type := List (Nat × Option PyVal)

/-- Dictionary lookup in the results cache: `some v` when the key is
present (with `v` the stored, possibly-`None`, value), `none` when the
operation has not been executed. -/
def lookupResult (results : Results) (i : Nat) : Option (Option PyVal) :=
  match results with
  | [] => none
  | (k, v) :: rest => if k = i then some v else lookupResult rest i

/-- Dictionary insertion into the results cache. -/
def insertResult (results : Results) (i : Nat) (v : Option PyVal) : Results :=
  (i, v) :: results

/-- The `previous_results` list comprehension: for each predecessor in
adjacency order, keep its cached result when it is in the cache and is
not `None`. -/
def gatherPrevious (results : Results) : List Operation → List PyVal
  | [] => []
  | p :: ps =>
    match lookupResult results p.id with
    | some (some v) => v :: gatherPrevious results ps
    | _ => gatherPrevious results ps

/-- The errors an iteration can raise: the `AttributeError` from
dereferencing `dataset.operations.graph` when `operations` is `None`,
a failed `assert`, and calling `.iterrows()` on a non-tabular value. -/
inductive ExecErr where
  | attributeError
  | assertionFailed
  | notATable
  deriving DecidableEq

/-- The per-row body of the `GroupRecordSet` branch, over the rows of
the predecessor's table: for each row, check every successor is a
`ReadField` (the `assert isinstance`), invoke each successor on the row
with the group's kwargs, and yield the group operation applied to the
collected field values. Returns the yielded records and the error that
stopped the loop, if any. -/
def rowLoop (g : ComputationGraph) (op : Operation) :
    List PyVal → List (Option PyVal) × Option ExecErr
  | [] => ([], none)
  | line :: rest =>
    if (g.succs op.id).all (fun rf => rf.kind = OpKind.readField) then
      let fields := (g.succs op.id).map
        (fun rf => rf.apply (g.kwargsOf op.id) [some line])
      let recd := op.apply (g.kwargsOf op.id) fields
      let tail := rowLoop g op rest
      (recd :: tail.1, tail.2)
    else ([], some ExecErr.assertionFailed)

/-- One step of the topological walk, for one operation: gather the
predecessor results; a `GroupRecordSet` is skipped unless its node name
equals the target, and otherwise asserts a single predecessor result,
iterates its rows and yields records without touching the cache; a
`ReadField` with no predecessor results is skipped; every other case
executes the operation and caches its result. Returns the updated
cache, the yielded records and a raised error, if any. -/
def execOp (g : ComputationGraph) (target : String) (results : Results)
    (op : Operation) : Results × List (Option PyVal) × Option ExecErr :=
  let previous := gatherPrevious results (g.preds op.id)
  match op.kind with
  | OpKind.groupRecordSet name =>
    if name ≠ target then (results, [], none)
    else
      match previous with
      | [prev] =>
        match prev with
        | PyVal.table rows =>
          let out := rowLoop g op rows
          (results, out.1, out.2)
        | _ => (results, [], some ExecErr.notATable)
      | _ => (results, [], some ExecErr.assertionFailed)
  | OpKind.readField =>
    if previous.isEmpty then (results, [], none)
    else
      (insertResult results op.id
        (op.apply (g.kwargsOf op.id) (previous.map some)), [], none)
  | OpKind.other =>
    (insertResult results op.id
      (op.apply (g.kwargsOf op.id) (previous.map some)), [], none)

/-- The topological walk over a list of operations, threading the
results cache, concatenating yields in order and stopping at the first
raised error (the generator terminates there). -/
def execOps (g : ComputationGraph) (target : String) :
    Results → List Operation → Results × List (Option PyVal) × Option ExecErr
  | results, [] => (results, [], none)
  | results, op :: rest =>
    match execOp g target results op with
    | (r1, ys1, some e) => (r1, ys1, some e)
    | (r1, ys1, none) =>
      let out := execOps g target r1 rest
      (out.1, ys1 ++ out.2.1, out.2.2)

/-- The user-facing `Dataset` handle: the loaded file and the compiled
computation graph (`None` when the validator never assigned it). -/
structure Dataset where
  file : PyVal
  operations : Option ComputationGraph

/-- The `Records` view: a dataset together with the target record-set
name; it owns no other state. -/
structure Records where
  dataset : Dataset
  record_set : String

/-- `Dataset.records`: the cheap factory for a `Records` view. -/
def Dataset.records (d : Dataset) (record_set : String) : Records :=
  Records.mk d record_set

/-- `Records.__iter__`, run to completion: allocate a fresh empty
results cache, dereference `dataset.operations.graph` (raising
`AttributeError` when `operations` is `None`), and walk the topological
order. Returns the full sequence of yielded records and the error that
terminated the generator, if any. -/
def Records.iter (r : Records) : List (Option PyVal) × Option ExecErr :=
  match r.dataset.operations with
  | none => ([], some ExecErr.attributeError)
  | some g => (execOps g r.record_set [] g.topo).2

/-! ## Concrete instances used to exercise the theorems -/

/-- A run on an existing file whose `check_rdf_graph` stage records one
Error-severity issue and whose entry node is the legacy
`"Movielens-25M"` dataset; no stage raises. -/
def movielensErrEnv : AnalysisEnv :=
  AnalysisEnv.mk "ds/croissant.json" true none (PyVal.dict []) none
    (StageEffect.mk [Issue.mk Severity.error "missing mandatory property"] none)
    (StageEffect.mk [] none) "Movielens-25M"
    (StageEffect.mk [] none) (StageEffect.mk [] none) (Issues.mk [])

/-- A run on an existing file whose `check_rdf_graph` stage records one
Error-severity issue, on an ordinary (non-legacy) dataset; no stage
raises. -/
def errEnv : AnalysisEnv :=
  AnalysisEnv.mk "ds/croissant.json" true none (PyVal.dict []) none
    (StageEffect.mk [Issue.mk Severity.error "missing mandatory property"] none)
    (StageEffect.mk [] none) "mydataset"
    (StageEffect.mk [] none) (StageEffect.mk [] none) (Issues.mk [])

/-- A run on a path that does not resolve to an existing file. -/
def missingFileEnv : AnalysisEnv :=
  AnalysisEnv.mk "ds/missing.json" false none (PyVal.dict []) none
    (StageEffect.mk [] none) (StageEffect.mk [] none) "mydataset"
    (StageEffect.mk [] none) (StageEffect.mk [] none) (Issues.mk [])

/-- A row-source operation producing a two-row table. -/
def opSource : Operation :=
  Operation.mk 0 OpKind.other
    (fun _ _ => some (PyVal.table [PyVal.str "a", PyVal.str "b"]))

/-- A `GroupRecordSet` operation for the record set named `"rs"`; called
with the per-row field values, it collects them into one record. -/
def opGroup : Operation :=
  Operation.mk 1 (OpKind.groupRecordSet "rs")
    (fun _ fields => some (PyVal.table (fields.filterMap id)))

/-- A `ReadField` operation returning the row it is given. -/
def opFieldA : Operation :=
  Operation.mk 2 OpKind.readField (fun _ args => args.headD none)

/-- A `ReadField` operation returning a constant field value. -/
def opFieldB : Operation :=
  Operation.mk 3 OpKind.readField (fun _ _ => some (PyVal.int 7))

/-- A concrete computation graph: the source feeds the group operation,
whose successors are the two field readers. -/
def graphW : ComputationGraph :=
  ComputationGraph.mk [opSource, opGroup, opFieldA, opFieldB]
    (fun i => match i with
      | 1 => [opSource] | 2 => [opGroup] | 3 => [opGroup] | _ => [])
    (fun i => match i with | 1 => [opFieldA, opFieldB] | _ => [])
    (fun _ => PyVal.dict [])

/-- A dataset carrying the concrete graph. -/
def datasetW : Dataset := Dataset.mk (PyVal.dict []) (some graphW)

/-- A second dataset sharing the same compiled graph but a different
source document. -/
def datasetW2 : Dataset := Dataset.mk (PyVal.str "other-doc") (some graphW)

/-- A dataset whose validator never assigned an operations graph. -/
def datasetNone : Dataset := Dataset.mk (PyVal.dict []) none

/-! ## General lemmas about the validator -/

theorem runStaticAnalysis_issues (env : AnalysisEnv) :
    (runStaticAnalysis env).issues = (runBody env).issues := rfl

theorem runStaticAnalysis_outcome_of_exc (env : AnalysisEnv) (e : Exc)
    (h : (runBody env).exc = some e) :
    (runStaticAnalysis env).outcome
      = (if (runBody env).issues.errors.isEmpty then VOutcome.raised e
         else VOutcome.raised (Exc.validationError (runBody env).issues.report)) := by
  simp only [runStaticAnalysis, h]

theorem runStaticAnalysis_outcome_of_no_exc (env : AnalysisEnv)
    (h : (runBody env).exc = none) :
    (runStaticAnalysis env).outcome
      = (if (runBody env).earlyReturn then VOutcome.ok false
         else if (runBody env).issues.errors.isEmpty then
           (if (runBody env).issues.warnings.isEmpty then VOutcome.ok false
            else VOutcome.ok true)
         else VOutcome.raised (Exc.validationError (runBody env).issues.report)) := by
  simp only [runStaticAnalysis, h]

theorem runBody_exc_of_earlyReturn (env : AnalysisEnv)
    (h : (runBody env).earlyReturn = true) : (runBody env).exc = none := by
  unfold runBody at h ⊢
  cases hl : loadFile env.fileExists env.filepath env.jsonExc env.fileContent with
  | error e => simp [hl] at h
  | ok v =>
    simp only [hl] at h ⊢
    cases h2 : env.loadRdfExc with
    | some e => simp [h2] at h
    | none =>
      simp only [h2] at h ⊢
      cases h3 : env.checkRdf.exc with
      | some e => simp [h3] at h
      | none =>
        simp only [h3] at h ⊢
        cases h4 : env.buildStructure.exc with
        | some e => simp [h4] at h
        | none =>
          simp only [h4] at h ⊢
          by_cases h5 : env.entryUid = "Movielens-25M"
          · simp only [if_pos h5]
          · simp only [if_neg h5] at h ⊢
            cases h6 : env.fromNodes.exc with
            | some e => simp [h6] at h
            | none =>
              simp only [h6] at h ⊢
              cases h7 : env.checkGraphEff.exc with
              | some e => simp [h7] at h
              | none => simp [h7]

/-- Claim C2 (amended): over analysis runs whose external stages do not
themselves raise a `ValidationError`, `run_static_analysis` raises a
`ValidationError` carrying the ledger's concatenated report if and only
if at least one Error-severity issue was recorded and the legacy
MovieLens early return was not taken; and when only Warning-severity
issues were recorded, no `ValidationError` is raised, and if the body
ran to completion without an exception and without the early return,
the run completes normally with the warning report logged. -/
theorem runStaticAnalysis_validationError_iff (env : AnalysisEnv)
    (hext : ∀ m, (runBody env).exc ≠ some (Exc.validationError m)) :
    (((runStaticAnalysis env).outcome
        = VOutcome.raised (Exc.validationError (runStaticAnalysis env).issues.report))
      ↔ ((runStaticAnalysis env).issues.errors ≠ []
          ∧ (runBody env).earlyReturn = false)) ∧
    ((runStaticAnalysis env).issues.errors = [] →
      (∀ m, (runStaticAnalysis env).outcome ≠ VOutcome.raised (Exc.validationError m)) ∧
      ((runBody env).exc = none → (runBody env).earlyReturn = false →
        (runStaticAnalysis env).issues.warnings ≠ [] →
        (runStaticAnalysis env).outcome = VOutcome.ok true)) := by
  rw [runStaticAnalysis_issues]
  cases hexc : (runBody env).exc with
  | some e =>
    rw [runStaticAnalysis_outcome_of_exc env e hexc]
    have hearly : (runBody env).earlyReturn = false := by
      cases h : (runBody env).earlyReturn
      · rfl
      · rw [runBody_exc_of_earlyReturn env h] at hexc; cases hexc
    by_cases herr : (runBody env).issues.errors = []
    · rw [if_pos (by simp [herr])]
      refine ⟨⟨fun h => ?_, fun h => absurd herr h.1⟩,
        fun _ => ⟨fun m h => ?_, fun hnone => ?_⟩⟩
      · injection h with he
        exact absurd (he ▸ hexc) (hext _)
      · injection h with he
        exact absurd (he ▸ hexc) (hext _)
      · exact Option.noConfusion hnone
    · rw [if_neg (by simpa [List.isEmpty_iff] using herr)]
      exact ⟨⟨fun _ => ⟨herr, hearly⟩, fun _ => rfl⟩, fun h => absurd h herr⟩
  | none =>
    rw [runStaticAnalysis_outcome_of_no_exc env hexc]
    by_cases hearly : (runBody env).earlyReturn = true
    · simp only [hearly, if_true]
      exact ⟨⟨fun h => VOutcome.noConfusion h, fun h => Bool.noConfusion h.2⟩,
        fun _ => ⟨fun m h => VOutcome.noConfusion h, fun _ hf => Bool.noConfusion hf⟩⟩
    · rw [if_neg hearly]
      have hearly' : (runBody env).earlyReturn = false := by
        cases h : (runBody env).earlyReturn
        · rfl
        · exact absurd h hearly
      by_cases herr : (runBody env).issues.errors = []
      · rw [if_pos (by simp [herr])]
        refine ⟨⟨fun h => ?_, fun h => absurd herr h.1⟩,
          fun _ => ⟨fun m h => ?_, fun _ _ hw => ?_⟩⟩
        · split at h <;> simp at h
        · split at h <;> simp at h
        · rw [if_neg (by simpa [List.isEmpty_iff] using hw)]
      · rw [if_neg (by simpa [List.isEmpty_iff] using herr)]
        exact ⟨⟨fun _ => ⟨herr, hearly'⟩, fun _ => rfl⟩, fun h => absurd h herr⟩

/-- Counterexample to claim C2 as stated: on a document whose entry node
is `"Movielens-25M"` and whose RDF check records an Error-severity
issue, `run_static_analysis` returns normally — no `ValidationError` is
raised even though an Error-severity issue was recorded. -/
theorem movielens_swallows_errors_counterexample :
    (runStaticAnalysis movielensErrEnv).issues.errors ≠ [] ∧
    (runStaticAnalysis movielensErrEnv).outcome = VOutcome.ok false ∧
    ∀ m, (runStaticAnalysis movielensErrEnv).outcome
      ≠ VOutcome.raised (Exc.validationError m) := by
  refine ⟨by decide, rfl, fun m h => ?_⟩
  exact VOutcome.noConfusion
    ((rfl : (runStaticAnalysis movielensErrEnv).outcome = VOutcome.ok false).symm.trans h)

/-- Witness for C2 (amended) at a concrete run: one Error-severity issue
recorded, no early return, so a `ValidationError` carrying the report is
raised. -/
theorem runStaticAnalysis_validationError_iff_witness :
    (runStaticAnalysis errEnv).outcome
      = VOutcome.raised (Exc.validationError (runStaticAnalysis errEnv).issues.report) :=
  ((runStaticAnalysis_validationError_iff errEnv
      (fun _ h => Option.noConfusion h)).1).mpr ⟨by decide, rfl⟩

/-- Claim C8: for a file path that does not resolve to an existing file
(with the validator's ledger in its freshly constructed, error-free
state), the run raises the `ValueError` naming the file, records no
issue in the ledger, and performs no graph construction or validation
work: no later stage runs and no operations graph is assigned. -/
theorem load_missing_file_raises_valueError (env : AnalysisEnv)
    (hex : env.fileExists = false) (hinit : env.initIssues.errors = []) :
    (runStaticAnalysis env).outcome
      = VOutcome.raised (Exc.valueError ("File " ++ env.filepath ++ " does not exist.")) ∧
    (runStaticAnalysis env).issues = env.initIssues ∧
    (runStaticAnalysis env).ranLoadRdf = false ∧
    (runStaticAnalysis env).ranCheckRdf = false ∧
    (runStaticAnalysis env).ranBuildStructure = false ∧
    (runStaticAnalysis env).ranFromNodes = false ∧
    (runStaticAnalysis env).ranCheckGraph = false ∧
    (runStaticAnalysis env).opsSet = false := by
  have hb : runBody env = BodyOut.mk env.initIssues false false
      (some (Exc.valueError ("File " ++ env.filepath ++ " does not exist.")))
      false false false false false := by
    unfold runBody loadFile
    simp [hex]
  simp [runStaticAnalysis, hb, hinit]

/-- Witness for C8 at a concrete missing file. -/
theorem load_missing_file_raises_valueError_witness :
    (runStaticAnalysis missingFileEnv).outcome
      = VOutcome.raised
          (Exc.valueError ("File " ++ "ds/missing.json" ++ " does not exist.")) ∧
    (runStaticAnalysis missingFileEnv).issues = Issues.mk [] :=
  ⟨(load_missing_file_raises_valueError missingFileEnv rfl rfl).1,
   (load_missing_file_raises_valueError missingFileEnv rfl rfl).2.1⟩

/-- Claim C9: on a document whose entry node uid is `"Movielens-25M"`
(and whose stages up to structure-graph construction do not raise),
static analysis returns early right after `build_structure_graph`:
`ComputationGraph.from_nodes` and `check_graph` never run, no operations
graph is assigned, and the run completes without raising. -/
theorem movielens_early_return (env : AnalysisEnv)
    (hex : env.fileExists = true) (hjson : env.jsonExc = none)
    (hrdf : env.loadRdfExc = none) (hchk : env.checkRdf.exc = none)
    (hbld : env.buildStructure.exc = none)
    (huid : env.entryUid = "Movielens-25M") :
    (runStaticAnalysis env).ranFromNodes = false ∧
    (runStaticAnalysis env).ranCheckGraph = false ∧
    (runStaticAnalysis env).opsSet = false ∧
    (runStaticAnalysis env).outcome = VOutcome.ok false := by
  have hb : runBody env = BodyOut.mk
      ((env.initIssues.append env.checkRdf.recorded).append env.buildStructure.recorded)
      false true none true true true false false := by
    unfold runBody loadFile
    simp [hex, hjson, hrdf, hchk, hbld, huid]
  simp [runStaticAnalysis, hb]

/-- Witness for C9 at a concrete MovieLens run. -/
theorem movielens_early_return_witness :
    (runStaticAnalysis movielensErrEnv).ranFromNodes = false ∧
    (runStaticAnalysis movielensErrEnv).ranCheckGraph = false ∧
    (runStaticAnalysis movielensErrEnv).opsSet = false ∧
    (runStaticAnalysis movielensErrEnv).outcome = VOutcome.ok false :=
  movielens_early_return movielensErrEnv rfl rfl rfl rfl rfl rfl

/-! ## General lemmas about the execution engine -/

theorem gatherPrevious_eq_filterMap (results : Results) :
    ∀ ps : List Operation,
      gatherPrevious results ps
        = ps.filterMap (fun p => (lookupResult results p.id).bind id)
  | [] => rfl
  | p :: ps => by
    unfold gatherPrevious
    rw [List.filterMap_cons]
    cases h : lookupResult results p.id with
    | none => simp [h, gatherPrevious_eq_filterMap results ps]
    | some v =>
      cases v with
      | none => simp [h, gatherPrevious_eq_filterMap results ps]
      | some w => simp [h, gatherPrevious_eq_filterMap results ps]

theorem execOp_no_yield (g : ComputationGraph) (target : String) (results : Results)
    (op : Operation)
    (h : ∀ n, op.kind = OpKind.groupRecordSet n → n ≠ target) :
    (execOp g target results op).2 = ([], none) := by
  unfold execOp
  cases hk : op.kind with
  | groupRecordSet name => simp [h name hk]
  | readField =>
    by_cases hp : (gatherPrevious results (g.preds op.id)).isEmpty <;> simp [hp]
  | other => simp

theorem execOps_cons (g : ComputationGraph) (target : String) (st : Results)
    (op : Operation) (rest : List Operation) :
    execOps g target st (op :: rest)
      = (match execOp g target st op with
         | (r1, ys1, some e) => (r1, ys1, some e)
         | (r1, ys1, none) =>
           ((execOps g target r1 rest).1,
            ys1 ++ (execOps g target r1 rest).2.1,
            (execOps g target r1 rest).2.2)) := rfl

theorem execOps_cons_some (g : ComputationGraph) (target : String) (st : Results)
    (op : Operation) (rest : List Operation) (r1 : Results)
    (ys1 : List (Option PyVal)) (e : ExecErr)
    (hp : execOp g target st op = (r1, ys1, some e)) :
    execOps g target st (op :: rest) = (r1, ys1, some e) := by
  rw [execOps_cons, hp]

theorem execOps_cons_none (g : ComputationGraph) (target : String) (st : Results)
    (op : Operation) (rest : List Operation) (r1 : Results)
    (ys1 : List (Option PyVal))
    (hp : execOp g target st op = (r1, ys1, none)) :
    execOps g target st (op :: rest)
      = ((execOps g target r1 rest).1,
         ys1 ++ (execOps g target r1 rest).2.1,
         (execOps g target r1 rest).2.2) := by
  rw [execOps_cons, hp]

theorem execOps_no_match (g : ComputationGraph) (target : String) :
    ∀ (L : List Operation) (st : Results),
      (∀ op ∈ L, ∀ n, op.kind = OpKind.groupRecordSet n → n ≠ target) →
      (execOps g target st L).2 = ([], none)
  | [], _, _ => rfl
  | op :: rest, st, h => by
    have h1 := execOp_no_yield g target st op (h op (List.mem_cons_self op rest))
    rcases hp : execOp g target st op with ⟨r1, ys1, e1⟩
    rw [hp] at h1
    injection h1 with hy he
    subst hy
    subst he
    rw [execOps_cons_none g target st op rest r1 [] hp]
    have h2 := execOps_no_match g target rest r1
      (fun o ho n hk => h o (List.mem_cons_of_mem op ho) n hk)
    simp [h2]

theorem execOps_append (g : ComputationGraph) (target : String) :
    ∀ (A B : List Operation) (st : Results),
      (execOps g target st A).2.2 = none →
      execOps g target st (A ++ B)
        = ((execOps g target (execOps g target st A).1 B).1,
           (execOps g target st A).2.1
             ++ (execOps g target (execOps g target st A).1 B).2.1,
           (execOps g target (execOps g target st A).1 B).2.2)
  | [], B, st, _ => by simp [execOps]
  | op :: A, B, st, h => by
    rcases hp : execOp g target st op with ⟨r1, ys1, e1⟩
    cases e1 with
    | some e =>
      rw [execOps_cons_some g target st op A r1 ys1 e hp] at h
      exact Option.noConfusion h
    | none =>
      rw [execOps_cons_none g target st op A r1 ys1 hp] at h
      have ih := execOps_append g target A B r1 (by exact h)
      rw [List.cons_append, execOps_cons_none g target st op (A ++ B) r1 ys1 hp,
        execOps_cons_none g target st op A r1 ys1 hp, ih]
      simp [List.append_assoc]

theorem rowLoop_all_readField (g : ComputationGraph) (op : Operation)
    (h : ∀ rf ∈ g.succs op.id, rf.kind = OpKind.readField) :
    ∀ rows : List PyVal,
      rowLoop g op rows
        = (rows.map (fun line => op.apply (g.kwargsOf op.id)
            ((g.succs op.id).map
              (fun rf => rf.apply (g.kwargsOf op.id) [some line]))),
           none)
  | [] => rfl
  | line :: rest => by
    have hc : ((g.succs op.id).all fun rf => rf.kind = OpKind.readField) = true := by
      rw [List.all_eq_true]
      intro rf hrf
      exact decide_eq_true (h rf hrf)
    unfold rowLoop
    simp [hc, rowLoop_all_readField g op h rest]

theorem records_iter_eq_execOps (d : Dataset) (g : ComputationGraph)
    (target : String) (hops : d.operations = some g) :
    (d.records target).iter = (execOps g target [] g.topo).2 := by
  simp [Records.iter, Dataset.records, hops]

/-- Claim C3: a `GroupRecordSet` operation whose node name differs from
the caller's target record-set name is skipped entirely by the executor:
the step neither applies it nor yields records nor changes the results
cache. -/
theorem groupRecordSet_other_name_skipped (g : ComputationGraph) (target : String)
    (results : Results) (op : Operation) (name : String)
    (hkind : op.kind = OpKind.groupRecordSet name) (hne : name ≠ target) :
    execOp g target results op = (results, [], none) := by
  unfold execOp
  rw [hkind]
  simp [hne]

/-- Witness for C3: the group operation for `"rs"` is skipped when the
caller asked for `"movies"`. -/
theorem groupRecordSet_other_name_skipped_witness :
    execOp graphW "movies" [] opGroup = ([], [], none) :=
  groupRecordSet_other_name_skipped graphW "movies" [] opGroup "rs" rfl (by decide)

/-- Claim C6: the gathered `previous_results` of an operation are exactly
the cached, non-`None` results of its graph predecessors, in adjacency
order: the comprehension equals filtering the predecessor list through
the cache, and a value is gathered precisely when some predecessor has
it cached as a non-`None` result. -/
theorem gatherPrevious_spec (g : ComputationGraph) (results : Results)
    (op : Operation) :
    gatherPrevious results (g.preds op.id)
      = (g.preds op.id).filterMap (fun p => (lookupResult results p.id).bind id) ∧
    ∀ v, v ∈ gatherPrevious results (g.preds op.id)
      ↔ ∃ p ∈ g.preds op.id, lookupResult results p.id = some (some v) := by
  refine ⟨gatherPrevious_eq_filterMap results _, fun v => ?_⟩
  rw [gatherPrevious_eq_filterMap results _]
  simp [List.mem_filterMap, Option.bind_eq_some]

/-- Claim C7: a `ReadField` operation reached in the top-level
topological walk with zero gathered predecessor results is skipped: it
is not invoked, yields nothing and adds no entry to the results
cache. -/
theorem readField_no_previous_skipped (g : ComputationGraph) (target : String)
    (results : Results) (op : Operation)
    (hkind : op.kind = OpKind.readField)
    (hprev : gatherPrevious results (g.preds op.id) = []) :
    execOp g target results op = (results, [], none) := by
  unfold execOp
  rw [hkind]
  simp [hprev]

/-- Witness for C7: a field reader whose group predecessor has no cached
result is skipped. -/
theorem readField_no_previous_skipped_witness :
    execOp graphW "rs" [] opFieldA = ([], [], none) :=
  readField_no_previous_skipped graphW "rs" [] opFieldA rfl rfl

/-- Claim C4: iterating a `Records` view is a pure function of the
dataset's compiled operations graph and the target name — each
iteration starts from a fresh empty results cache, so two datasets
sharing the same graph (in particular, the same dataset twice) produce
the identical sequence of records, and the view still references its
unmodified dataset. -/
theorem records_iter_depends_only_on_graph (d1 d2 : Dataset) (target : String)
    (h : d1.operations = d2.operations) :
    (d1.records target).iter = (d2.records target).iter ∧
    (d1.records target).dataset = d1 := by
  constructor
  · simp [Records.iter, Dataset.records, h]
  · rfl

/-- Witness for C4: two datasets with the same graph but different
source documents yield the same records. -/
theorem records_iter_depends_only_on_graph_witness :
    (datasetW.records "rs").iter = (datasetW2.records "rs").iter ∧
    (datasetW.records "rs").dataset = datasetW :=
  records_iter_depends_only_on_graph datasetW datasetW2 "rs" rfl

/-- Claim C5: when the target record-set name matches no
`GroupRecordSet` node of the computation graph, iterating yields the
empty sequence and raises no error. -/
theorem records_iter_absent_recordSet_empty (g : ComputationGraph)
    (target : String) (d : Dataset) (hops : d.operations = some g)
    (h : ∀ op ∈ g.topo, ∀ n, op.kind = OpKind.groupRecordSet n → n ≠ target) :
    (d.records target).iter = ([], none) := by
  rw [records_iter_eq_execOps d g target hops,
    execOps_no_match g target g.topo [] h]

/-- Witness for C5: asking the concrete graph for the absent record set
`"movies"` yields nothing and no error. -/
theorem records_iter_absent_recordSet_empty_witness :
    (datasetW.records "movies").iter = ([], none) := by
  refine records_iter_absent_recordSet_empty graphW "movies" datasetW rfl ?_
  intro op hop n hk
  have ht : graphW.topo = [opSource, opGroup, opFieldA, opFieldB] := rfl
  rw [ht] at hop
  rcases List.mem_cons.mp hop with rfl | hop
  · exact OpKind.noConfusion hk
  rcases List.mem_cons.mp hop with rfl | hop
  · injection hk with hn
    subst hn
    decide
  rcases List.mem_cons.mp hop with rfl | hop
  · exact OpKind.noConfusion hk
  · rw [List.mem_singleton] at hop
    subst hop
    exact OpKind.noConfusion hk

/-- Claim C10: when the validator left `operations` as `None`, the
`records` factory itself still succeeds (it merely packages the dataset
and the name), but iterating the returned view raises the
`AttributeError` from `dataset.operations.graph` instead of yielding an
empty sequence. -/
theorem records_iter_none_operations_raises (d : Dataset) (name : String)
    (h : d.operations = none) :
    d.records name = Records.mk d name ∧
    (d.records name).iter = ([], some ExecErr.attributeError) :=
  ⟨rfl, by simp [Records.iter, Dataset.records, h]⟩

/-- Witness for C10 on a dataset with no operations graph. -/
theorem records_iter_none_operations_raises_witness :
    datasetNone.records "rs" = Records.mk datasetNone "rs" ∧
    (datasetNone.records "rs").iter = ([], some ExecErr.attributeError) :=
  records_iter_none_operations_raises datasetNone "rs" rfl

/-- Claim C1: when the topological order contains exactly one
`GroupRecordSet` named after the caller's target, the gathered result
of its single predecessor at that point is a table, and all its
successors are `ReadField` operations, then iterating the records view
yields exactly one record per table row, in row order: each record is
the group operation applied to the values produced by invoking every
successor `ReadField` on that row, and an empty table yields zero
records. -/
theorem records_iter_one_record_per_row (g : ComputationGraph) (target : String)
    (L1 L2 : List Operation) (gop : Operation) (rows : List PyVal) (d : Dataset)
    (htopo : g.topo = L1 ++ gop :: L2)
    (hkind : gop.kind = OpKind.groupRecordSet target)
    (h1 : ∀ op ∈ L1, ∀ n, op.kind = OpKind.groupRecordSet n → n ≠ target)
    (h2 : ∀ op ∈ L2, ∀ n, op.kind = OpKind.groupRecordSet n → n ≠ target)
    (hsuccs : ∀ rf ∈ g.succs gop.id, rf.kind = OpKind.readField)
    (hprev : gatherPrevious (execOps g target [] L1).1 (g.preds gop.id)
      = [PyVal.table rows])
    (hops : d.operations = some g) :
    (d.records target).iter
      = (rows.map (fun line => gop.apply (g.kwargsOf gop.id)
          ((g.succs gop.id).map
            (fun rf => rf.apply (g.kwargsOf gop.id) [some line]))),
         none) := by
  rw [records_iter_eq_execOps d g target hops, htopo]
  have hL1 := execOps_no_match g target L1 [] h1
  have happ := execOps_append g target L1 (gop :: L2) [] (by rw [hL1])
  set st1 := (execOps g target [] L1).1 with hst1
  have hstep : execOp g target st1 gop
      = (st1, rows.map (fun line => gop.apply (g.kwargsOf gop.id)
          ((g.succs gop.id).map
            (fun rf => rf.apply (g.kwargsOf gop.id) [some line]))), none) := by
    unfold execOp
    simp only [hkind, hprev]
    rw [if_neg (show ¬(target ≠ target) from fun hc => hc rfl)]
    rw [rowLoop_all_readField g gop hsuccs rows]
  have hcons := execOps_cons_none g target st1 gop L2 st1
    (rows.map (fun line => gop.apply (g.kwargsOf gop.id)
      ((g.succs gop.id).map
        (fun rf => rf.apply (g.kwargsOf gop.id) [some line])))) hstep
  have hL2 := execOps_no_match g target L2 st1 h2
  rw [happ]
  simp [hL1, hcons, hL2]

/-- Witness for C1 on the concrete graph: the two-row source table
yields exactly two records, each assembled from the two field
readers. -/
theorem records_iter_one_record_per_row_witness :
    (datasetW.records "rs").iter
      = ([some (PyVal.table [PyVal.str "a", PyVal.int 7]),
          some (PyVal.table [PyVal.str "b", PyVal.int 7])], none) := by
  refine records_iter_one_record_per_row graphW "rs" [opSource]
    [opFieldA, opFieldB] opGroup [PyVal.str "a", PyVal.str "b"] datasetW
    rfl rfl ?_ ?_ ?_ rfl rfl
  · intro op hop n hk
    rw [List.mem_singleton] at hop
    subst hop
    exact OpKind.noConfusion hk
  · intro op hop n hk
    rcases List.mem_cons.mp hop with rfl | hop
    · exact OpKind.noConfusion hk
    · rw [List.mem_singleton] at hop
      subst hop
      exact OpKind.noConfusion hk
  · intro rf h
    have hs : graphW.succs opGroup.id = [opFieldA, opFieldB] := rfl
    rw [hs] at h
    rcases List.mem_cons.mp h with rfl | h
    · rfl
    · rw [List.mem_singleton] at h
      subst h
      rfl

end Croissant
